import Mathlib

/-!
Verification of the reward-generation subsystem of the pokemon-hotel
backend: the pity-tracking state machine (`src/services/pitySystem.ts`),
the card generator and its fallback chains (`src/services/cardGenerator.ts`),
the guess-feedback engine (`src/services/wordleLogic.ts`) and the rarity
normalisation table (card tier mapping service).

The TypeScript services are embedded shallowly: the Prisma database is a
list of records passed explicitly, `Math.random()` draws are threaded as
explicit rational/natural parameters, and functions that can `throw`
return `Except String`.
-/

namespace PokemonHotel

/-- Pity state per user, mirroring the `PityState` interface of
`pitySystem.ts` (the `PityTracker` table columns, all counters defaulting
to 0). Timestamps are modelled as natural numbers. -/
structure PityState where
  consecutiveTier6 : Int
  consecutiveTier5 : Int
  gamesWithoutCeiling : Int
  hardPityCounter : Int
  totalGames : Int
  lastCeilingPull : Option Nat
  deriving Repr, DecidableEq

/-- The freshly created tracker: every counter zero, no ceiling pull
(`prisma.pityTracker.create({ data: { userId } })` with the schema
defaults). -/
def initialPityState : PityState :=
  { consecutiveTier6 := 0
    consecutiveTier5 := 0
    gamesWithoutCeiling := 0
    hardPityCounter := 0
    totalGames := 0
    lastCeilingPull := none }

/-- State transition of `updatePityTracker(userId, tier, pulledCeiling)`:
the database read/write is made explicit, so the function maps the old
tracker row to the updated one.  `now` stands for `new Date()`. -/
def updatePityTracker (tracker : PityState) (tier : Int) (pulledCeiling : Bool)
    (now : Nat) : PityState :=
  let base := { tracker with
    totalGames := tracker.totalGames + 1
    hardPityCounter := tracker.hardPityCounter + 1 }
  let streaks :=
    if tier = 6 then
      { base with consecutiveTier6 := tracker.consecutiveTier6 + 1, consecutiveTier5 := 0 }
    else if tier = 5 then
      { base with consecutiveTier5 := tracker.consecutiveTier5 + 1, consecutiveTier6 := 0 }
    else
      { base with consecutiveTier6 := 0, consecutiveTier5 := 0 }
  if pulledCeiling then
    { streaks with gamesWithoutCeiling := 0, hardPityCounter := 0, lastCeilingPull := some now }
  else
    { streaks with gamesWithoutCeiling := tracker.gamesWithoutCeiling + 1 }

/-- One completed game as seen by the pity tracker: the resulting tier,
whether a ceiling card was pulled, and the wall-clock instant. -/
structure GameOutcome where
  tier : Int
  pulledCeiling : Bool
  now : Nat
  deriving Repr, DecidableEq

/-- Apply a sequence of completed games to a pity state, one
`updatePityTracker` transition per game, oldest first. -/
def applyGames (s : PityState) (games : List GameOutcome) : PityState :=
  games.foldl (fun st g => updatePityTracker st g.tier g.pulledCeiling g.now) s

/-- Result record of `calculatePityModifiers`. -/
structure PityModifiers where
  ceilingWeightMultiplier : Rat
  guaranteeCeiling : Bool
  tierBoost : Bool
  deriving Repr, DecidableEq

/-- The modifier computation `calculatePityModifiers(pity)` of `pitySystem.ts`.  The coin for the
20% tier-boost roll (`Math.random() < 0.2`) is passed explicitly as
`coin`, a uniform draw from `[0,1)`. -/
def calculatePityModifiers (pity : PityState) (coin : Rat) : PityModifiers :=
  if pity.hardPityCounter ≥ 10 then
    { ceilingWeightMultiplier := 1, guaranteeCeiling := true, tierBoost := false }
  else
    let softMultiplier : Rat :=
      if pity.consecutiveTier6 ≥ 3 then 5/2
      else if pity.consecutiveTier6 = 2 then 3/2
      else 1
    let tierBoost : Bool :=
      if pity.consecutiveTier6 ≥ 3 then decide (coin < 1/5) else false
    let ceilingWeightMultiplier :=
      if pity.gamesWithoutCeiling ≥ 7 then max softMultiplier 2
      else if pity.gamesWithoutCeiling ≥ 5 then max softMultiplier (13/10)
      else softMultiplier
    { ceilingWeightMultiplier, guaranteeCeiling := false, tierBoost }

/-- A `Card` row: only the columns the card generator reads (`id`,
`pokemonId`, `tier`, `isCeiling`, `weight`; the schema declares `weight`
`DOUBLE PRECISION NOT NULL DEFAULT 1.0`, modelled as a rational). -/
structure Card where
  id : Nat
  pokemonId : Nat
  tier : Int
  isCeiling : Bool
  weight : Rat
  deriving Repr, DecidableEq

/-- JS truthiness coercion in `item.weight || 1`: a missing (`undefined`)
or zero weight falls back to 1. -/
def weightOrOne (w : Option Rat) : Rat :=
  match w with
  | none => 1
  | some v => if v = 0 then 1 else v

/-- The scanning loop of `selectWeightedRandom`: `random -= weights[i]; if
(random <= 0) return items[i]`, over the item/weight pairs in list order;
`none` when the loop runs off the end. -/
def weightedScan {T : Type} : List (T × Rat) → Rat → Option T
  | [], _ => none
  | (x, w) :: rest, random =>
    if random - w ≤ 0 then some x else weightedScan rest (random - w)

/-- The body shared by `selectWeightedRandom` and the inline loop of
`selectRandomPokemon`: sum the weights, scale the uniform draw `r` by the
total (`Math.random() * totalWeight`), scan, and fall back to the last
item when the loop runs off the end.  The JS indexing
`items[items.length - 1]` is modelled with `getLast?`, which is `none`
exactly on the empty list — a case every caller rules out first. -/
def weightedDraw {T : Type} (items : List T) (weights : List Rat) (r : Rat) :
    Option T :=
  match weightedScan (items.zip weights) (r * weights.foldl (fun sum w => sum + w) 0) with
  | some y => some y
  | none => items.getLast?

/-- The draw `selectWeightedRandom(items, customWeights?)` of `cardGenerator.ts`.
`wt` is the `.weight` accessor of the generic element type (which has an
optional `weight` field), and `r` the uniform `Math.random()` draw from
the interval from 0 inclusive to 1 exclusive.  The `none` arms of the two
matches are unreachable (the lists are non-empty there) and re-raise the
empty-array error. -/
def selectWeightedRandom {T : Type} (wt : T → Option Rat) (items : List T)
    (customWeights : Option (List Rat)) (r : Rat) : Except String T :=
  if items.length = 0 then
    Except.error "Cannot select from empty array"
  else if items.length = 1 then
    match items.head? with
    | some x => Except.ok x
    | none => Except.error "Cannot select from empty array"
  else
    match weightedDraw items
        (customWeights.getD (items.map (fun item => weightOrOne (wt item)))) r with
    | some y => Except.ok y
    | none => Except.error "Cannot select from empty array"

/-- The `.weight` accessor for `Card` items (always present). -/
def cardWeight (c : Card) : Option Rat := some c.weight

/-- The chain `selectGuaranteedCard(pokemonId, tier)`: cards of the entity at the
exact tier, else the adjacent tiers `max 1 (tier-1)` / `min 6 (tier+1)`,
else any tier, else `null`; within the first non-empty pool a weighted
random draw driven by `r`. -/
def selectGuaranteedCard (db : List Card) (pokemonId : Nat) (tier : Int) (r : Rat) :
    Option Card :=
  let cards := db.filter (fun c => c.pokemonId = pokemonId ∧ c.tier = tier)
  if cards.length = 0 then
    let fallbackCards1 := db.filter (fun c =>
      c.pokemonId = pokemonId ∧ (c.tier = max 1 (tier - 1) ∨ c.tier = min 6 (tier + 1)))
    if fallbackCards1.length > 0 then
      (selectWeightedRandom cardWeight fallbackCards1 none r).toOption
    else
      let fallbackCards2 := db.filter (fun c => c.pokemonId = pokemonId)
      if fallbackCards2.length > 0 then
        (selectWeightedRandom cardWeight fallbackCards2 none r).toOption
      else
        none
  else
    (selectWeightedRandom cardWeight cards none r).toOption

/-- The pick `selectRandomCard(tier, ceilingWeightMultiplier, guaranteeCeiling,
excludeIds)`: under hard pity it returns a uniformly indexed ceiling card
at the tier when any non-excluded one exists (`ceilIdx` models
`Math.floor(Math.random() * ceilingCards.length)`); otherwise a weighted
draw over all non-excluded cards of the tier with the ceiling multiplier
applied, failing on an empty pool. -/
def selectRandomCard (db : List Card) (tier : Int) (ceilingWeightMultiplier : Rat)
    (guaranteeCeiling : Bool) (excludeIds : List Nat) (ceilIdx : Nat) (r : Rat) :
    Except String Card :=
  let ceilingCards := db.filter (fun c => c.tier = tier ∧ c.isCeiling = true ∧ c.id ∉ excludeIds)
  if h : guaranteeCeiling = true ∧ 0 < ceilingCards.length then
    Except.ok (ceilingCards.get ⟨ceilIdx % ceilingCards.length, Nat.mod_lt _ h.2⟩)
  else
    let cards := db.filter (fun c => c.tier = tier ∧ c.id ∉ excludeIds)
    if cards.length = 0 then
      Except.error "No cards available for tier"
    else
      let weights := cards.map (fun card =>
        if card.isCeiling then card.weight * ceilingWeightMultiplier else card.weight)
      selectWeightedRandom cardWeight cards (some weights) r

/-- The `appliedPity` record returned with an offer. -/
structure AppliedPity where
  ceilingBoost : Rat
  tierBoost : Bool
  hardPity : Bool
  deriving Repr, DecidableEq

/-- The `CardOffer` result of `generateCardOffers`. -/
structure CardOffer where
  cards : List Card
  guaranteedCard : Card
  appliedPity : AppliedPity
  deriving Repr, DecidableEq

/-- One try/catch block of `generateCardOffers`: attempt
`selectRandomCard`; on error fall back to the first catalog card outside
the exclusion list (`prisma.card.findFirst` with `id not/notIn`), and to
the guaranteed card itself as the ultimate fallback. -/
def pickRandomCardWithFallback (db : List Card) (tier : Int)
    (ceilingWeightMultiplier : Rat) (guaranteeCeiling : Bool) (excludeIds : List Nat)
    (ceilIdx : Nat) (r : Rat) (guaranteedCard : Card) : Card :=
  match selectRandomCard db tier ceilingWeightMultiplier guaranteeCeiling excludeIds
      ceilIdx r with
  | Except.ok c => c
  | Except.error _ =>
    match (db.filter (fun c => c.id ∉ excludeIds)).head? with
    | some c => c
    | none => guaranteedCard

/-- The offer generator `generateCardOffers(userId, tier, guaranteedPokemonId)`: the pity read
is made explicit (`pityState`), `coin` drives the tier-boost roll, `rGuar`
the guaranteed-card draw, and each random slot gets a ceiling index and a
weighted draw. -/
def generateCardOffers (db : List Card) (pityState : PityState) (tier : Int)
    (guaranteedPokemonId : Nat) (coin rGuar : Rat) (ceilIdx1 : Nat) (r1 : Rat)
    (ceilIdx2 : Nat) (r2 : Rat) : Except String CardOffer :=
  let pityModifiers := calculatePityModifiers pityState coin
  let effectiveTier :=
    if pityModifiers.tierBoost = true ∧ tier > 1 then max 1 (tier - 1) else tier
  match selectGuaranteedCard db guaranteedPokemonId effectiveTier rGuar with
  | none =>
    Except.error "No cards found for Pokemon"
  | some guaranteedCard =>
    let randomCard1 := pickRandomCardWithFallback db effectiveTier
      pityModifiers.ceilingWeightMultiplier pityModifiers.guaranteeCeiling
      [guaranteedCard.id] ceilIdx1 r1 guaranteedCard
    let randomCard2 := pickRandomCardWithFallback db effectiveTier
      pityModifiers.ceilingWeightMultiplier pityModifiers.guaranteeCeiling
      [guaranteedCard.id, randomCard1.id] ceilIdx2 r2 guaranteedCard
    Except.ok
      { cards := [guaranteedCard, randomCard1, randomCard2]
        guaranteedCard
        appliedPity :=
          { ceilingBoost := pityModifiers.ceilingWeightMultiplier
            tierBoost := pityModifiers.tierBoost
            hardPity := pityModifiers.guaranteeCeiling } }

/-- The per-attribute verdict of `wordleLogic.ts`.  `partialMatch` stands
for the string verdict named after a partial position match, `na` for the
verdict printed as n/a. -/
inductive FeedbackType where
  | correct
  | partialMatch
  | wrong
  | na
  deriving Repr, DecidableEq

/-- The `Pokemon` attributes read by the feedback engine. -/
structure Pokemon where
  id : Nat
  type1 : String
  type2 : Option String
  evolutionStage : Int
  fullyEvolved : Bool
  color : String
  generation : Int
  deriving Repr, DecidableEq

/-- The six per-attribute verdicts of `GuessFeedback`. -/
structure GuessFeedback where
  type1 : FeedbackType
  type2 : FeedbackType
  evolutionStage : FeedbackType
  fullyEvolved : FeedbackType
  color : FeedbackType
  generation : FeedbackType
  deriving Repr, DecidableEq

/-- The comparison `compareTypes` of `wordleLogic.ts`: position-aware types.
The TS `position` parameter is 1 or 2; the ternary `position === 1 ? a : b`
is mirrored by `if position = 1`. -/
def compareTypes (guessType1 : String) (guessType2 : Option String)
    (answerType1 : String) (answerType2 : Option String) (position : Nat) :
    FeedbackType :=
  let guessType : Option String := if position = 1 then some guessType1 else guessType2
  let answerType : Option String := if position = 1 then some answerType1 else answerType2
  if position = 2 ∧ answerType2 = none then
    FeedbackType.na
  else if position = 2 ∧ guessType = none then
    FeedbackType.wrong
  else if guessType = answerType then
    FeedbackType.correct
  else if position = 1 then
    if guessType = answerType2 then FeedbackType.partialMatch else FeedbackType.wrong
  else
    if guessType = some answerType1 then FeedbackType.partialMatch else FeedbackType.wrong

/-- The comparison `compareExact`: strict equality for the non-type
attributes. -/
def compareExact {T : Type} [DecidableEq T] (guessValue answerValue : T) : FeedbackType :=
  if guessValue = answerValue then FeedbackType.correct else FeedbackType.wrong

/-- The feedback record `generateFeedback(guess, answer)` of `wordleLogic.ts`. -/
def generateFeedback (guess answer : Pokemon) : GuessFeedback :=
  { type1 := compareTypes guess.type1 guess.type2 answer.type1 answer.type2 1
    type2 := compareTypes guess.type1 guess.type2 answer.type1 answer.type2 2
    evolutionStage := compareExact guess.evolutionStage answer.evolutionStage
    fullyEvolved := compareExact guess.fullyEvolved answer.fullyEvolved
    color := compareExact guess.color answer.color
    generation := compareExact guess.generation answer.generation }

/-- A `PokemonSpawn` row: biome, time-of-day slot and spawn weight for one
entity. -/
structure PokemonSpawn where
  pokemonId : Nat
  biomeId : Nat
  timeOfDay : String
  spawnWeight : Rat
  deriving Repr, DecidableEq

/-- The Prisma relation filter `pokemon: cards: some: ...` — the spawn's
entity owns at least one card in the catalog. -/
def hasCard (cards : List Card) (pokemonId : Nat) : Bool :=
  cards.any (fun c => c.pokemonId = pokemonId)

/-- The spawn selector `selectRandomPokemon(biomeId, timeOfDay)` of `cardGenerator.ts`:
card-bearing spawns of the biome matching the time of day (or configured
for both), falling back to any card-bearing spawn of the biome, then an
inline weighted draw with last-element fallback. -/
def selectRandomPokemon (spawns : List PokemonSpawn) (cards : List Card)
    (biomeId : Nat) (timeOfDay : String) (r : Rat) : Except String Nat :=
  let spawnsAtTime := spawns.filter (fun s =>
    s.biomeId = biomeId ∧ (s.timeOfDay = timeOfDay ∨ s.timeOfDay = "both") ∧
      hasCard cards s.pokemonId = true)
  let pool :=
    if spawnsAtTime.length = 0 then
      spawns.filter (fun s => s.biomeId = biomeId ∧ hasCard cards s.pokemonId = true)
    else
      spawnsAtTime
  if pool.length = 0 then
    Except.error "No Pokemon with cards available for biome"
  else
    match weightedDraw pool (pool.map (fun s => s.spawnWeight)) r with
    | some s => Except.ok s.pokemonId
    | none => Except.error "No Pokemon with cards available for biome"

/-- Whether `needle` occurs at the start of `hay` (character lists). -/
def strHasPrefixChars : List Char → List Char → Bool
  | _, [] => true
  | [], _ :: _ => false
  | a :: as, b :: bs => a = b && strHasPrefixChars as bs

/-- Whether `needle` occurs anywhere inside `hay` (character lists). -/
def strContainsChars (hay needle : List Char) : Bool :=
  match hay with
  | [] => needle.isEmpty
  | a :: t => strHasPrefixChars (a :: t) needle || strContainsChars t needle

/-- The JS `normalized.includes(keyword)` substring test. -/
def strContains (hay needle : String) : Bool :=
  strContainsChars hay.toList needle.toList

/-- JS `toLowerCase()`, modelled character-wise with `Char.toLower`. -/
def strToLower (s : String) : String := String.mk (s.data.map Char.toLower)

/-- A whitespace character as far as JS `trim()` is concerned (the
catalog only ever carries plain spaces and line breaks). -/
def isSpaceChar (c : Char) : Bool := c = ' ' ∨ c = '\t' ∨ c = '\n' ∨ c = '\r'

/-- JS `trim()`: strip leading and trailing whitespace. -/
def strTrim (s : String) : String :=
  String.mk (((s.data.dropWhile isSpaceChar).reverse.dropWhile isSpaceChar).reverse)

/-- The 11 members of the `CardRarity` union type of the card tier
mapping service. -/
def cardRarityNames : List String :=
  ["Common", "Uncommon", "Rare", "Double Rare", "Illustration Rare", "Super Rare",
   "Special Illustration Rare", "Immersive", "Shiny Rare", "Shiny Super Rare", "Ultra Rare"]

/-- The lowercase keywords `normalizeRarity` probes with `includes`, in
probe order. -/
def rarityKeywords : List String :=
  ["ultra rare", "shiny super rare", "shiny rare", "immersive", "special illustration rare",
   "illustration rare", "super rare", "double rare", "rare", "uncommon", "common"]

/-- The normaliser `normalizeRarity(tcgRarity)` of the card tier mapping service: folds
TCGdex rarity variants into the canonical `CardRarity` names, defaulting
to Common for unknown input. -/
def normalizeRarity (tcgRarity : String) : String :=
  let normalized := strTrim (strToLower tcgRarity)
  if strContains normalized "ultra rare" ∨ normalized = "ultra rare" then "Ultra Rare"
  else if strContains normalized "shiny super rare" then "Shiny Super Rare"
  else if strContains normalized "shiny rare" then "Shiny Rare"
  else if strContains normalized "immersive" then "Immersive"
  else if strContains normalized "special illustration rare" ∨
      normalized = "special illustration rare" then "Special Illustration Rare"
  else if strContains normalized "illustration rare" ∨
      normalized = "illustration rare" then "Illustration Rare"
  else if strContains normalized "super rare" ∨ normalized = "super rare" then "Super Rare"
  else if strContains normalized "double rare" ∨ normalized = "double rare" then "Double Rare"
  else if strContains normalized "rare" then "Rare"
  else if strContains normalized "uncommon" then "Uncommon"
  else if strContains normalized "common" then "Common"
  else "Common"

/-! ### Lemmas about the weighted draw -/

theorem weightedScan_mem {T : Type} (l : List (T × Rat)) (r : Rat) (x : T)
    (h : weightedScan l r = some x) : ∃ w, (x, w) ∈ l := by
  induction l generalizing r with
  | nil => simp [weightedScan] at h
  | cons p rest ih =>
    obtain ⟨a, w⟩ := p
    rw [weightedScan] at h
    by_cases hc : r - w ≤ 0
    · rw [if_pos hc, Option.some.injEq] at h
      exact ⟨w, h ▸ List.mem_cons_self _ _⟩
    · rw [if_neg hc] at h
      obtain ⟨w2, hw2⟩ := ih _ h
      exact ⟨w2, List.mem_cons_of_mem _ hw2⟩

theorem weightedDraw_mem {T : Type} (items : List T) (ws : List Rat) (r : Rat)
    (y : T) (h : weightedDraw items ws r = some y) : y ∈ items := by
  unfold weightedDraw at h
  cases hscan : weightedScan (items.zip ws) (r * ws.foldl (fun sum w => sum + w) 0) with
  | none =>
    rw [hscan] at h
    obtain ⟨hne, heq⟩ := List.mem_getLast?_eq_getLast (Option.mem_def.mpr h)
    exact heq ▸ List.getLast_mem hne
  | some z =>
    rw [hscan] at h
    injection h with h2
    obtain ⟨w, hw⟩ := weightedScan_mem _ _ _ hscan
    exact h2 ▸ (List.of_mem_zip hw).1

theorem weightedDraw_some {T : Type} (items : List T) (ws : List Rat) (r : Rat)
    (hne : items ≠ []) : ∃ y ∈ items, weightedDraw items ws r = some y := by
  unfold weightedDraw
  cases hscan : weightedScan (items.zip ws) (r * ws.foldl (fun sum w => sum + w) 0) with
  | none =>
    exact ⟨items.getLast hne, List.getLast_mem hne,
      List.getLast?_eq_getLast_of_ne_nil hne⟩
  | some z =>
    obtain ⟨w, hw⟩ := weightedScan_mem _ _ _ hscan
    exact ⟨z, (List.of_mem_zip hw).1, rfl⟩

theorem selectWeightedRandom_mem {T : Type} (wt : T → Option Rat) (items : List T)
    (cw : Option (List Rat)) (r : Rat) (hne : items ≠ []) :
    ∃ y ∈ items, selectWeightedRandom wt items cw r = Except.ok y := by
  unfold selectWeightedRandom
  have h0 : ¬ items.length = 0 := fun h => hne (List.length_eq_zero.mp h)
  rw [if_neg h0]
  by_cases h1 : items.length = 1
  · rw [if_pos h1]
    obtain ⟨x, xs, rfl⟩ := List.exists_cons_of_ne_nil hne
    exact ⟨x, List.mem_cons_self _ _, rfl⟩
  · rw [if_neg h1]
    obtain ⟨y, hy, hw⟩ :=
      weightedDraw_some items (cw.getD (items.map (fun item => weightOrOne (wt item)))) r hne
    rw [hw]
    exact ⟨y, hy, rfl⟩

/-! ### Lemmas about the pity system -/

theorem calculatePityModifiers_hardPity (s : PityState) (coin : Rat)
    (h : s.hardPityCounter ≥ 10) :
    calculatePityModifiers s coin =
      { ceilingWeightMultiplier := 1, guaranteeCeiling := true, tierBoost := false } := by
  unfold calculatePityModifiers
  rw [if_pos h]

theorem updatePityTracker_hardPity_noCeiling (s : PityState) (tier : Int) (now : Nat) :
    (updatePityTracker s tier false now).hardPityCounter = s.hardPityCounter + 1 := by
  simp only [updatePityTracker]
  split_ifs <;> simp_all

theorem applyGames_nil (s : PityState) : applyGames s [] = s := rfl

theorem applyGames_cons (s : PityState) (g : GameOutcome) (gs : List GameOutcome) :
    applyGames s (g :: gs) =
      applyGames (updatePityTracker s g.tier g.pulledCeiling g.now) gs := rfl

theorem applyGames_hardPity (games : List GameOutcome) :
    ∀ s : PityState, (∀ g ∈ games, g.pulledCeiling = false) →
      (applyGames s games).hardPityCounter = s.hardPityCounter + games.length := by
  induction games with
  | nil => intro s _; simp [applyGames_nil]
  | cons g gs ih =>
    intro s hnc
    have hg : g.pulledCeiling = false := hnc g (List.mem_cons_self g gs)
    rw [applyGames_cons, ih _ (fun g2 hg2 => hnc g2 (List.mem_cons_of_mem _ hg2)), hg,
      updatePityTracker_hardPity_noCeiling]
    simp [List.length_cons]
    omega

/-- C3: starting from any pity state with `hardPityCounter = 0`, ten
consecutive `updatePityTracker` transitions with `pulledCeiling = false`
(any tiers) make `calculatePityModifiers` return `guaranteeCeiling`; and
any state with `hardPityCounter ≥ 10` immediately yields the hard-pity
record with multiplier 1.0 and no tier boost. -/
theorem hardPity_after_ten_games :
    (∀ (s : PityState) (games : List GameOutcome) (coin : Rat),
        s.hardPityCounter = 0 → games.length = 10 →
        (∀ g ∈ games, g.pulledCeiling = false) →
        (calculatePityModifiers (applyGames s games) coin).guaranteeCeiling = true) ∧
    (∀ (t : PityState) (coin : Rat), t.hardPityCounter ≥ 10 →
        calculatePityModifiers t coin =
          { ceilingWeightMultiplier := 1, guaranteeCeiling := true, tierBoost := false }) := by
  constructor
  · intro s games coin h0 hlen hnc
    have hc := applyGames_hardPity games s hnc
    rw [h0, hlen] at hc
    rw [calculatePityModifiers_hardPity _ _ (by omega)]
  · exact fun t coin h => calculatePityModifiers_hardPity t coin h

/-- Witness for C3 at a concrete run: ten tier-6 games with no ceiling
pull starting from the fresh tracker. -/
theorem hardPity_after_ten_games_witness :
    (calculatePityModifiers
        (applyGames initialPityState (List.replicate 10 ⟨6, false, 0⟩)) 0).guaranteeCeiling
      = true ∧
    calculatePityModifiers
        { initialPityState with hardPityCounter := 10 } 0 =
      { ceilingWeightMultiplier := 1, guaranteeCeiling := true, tierBoost := false } :=
  ⟨hardPity_after_ten_games.1 initialPityState _ 0 rfl (by simp)
      (by intro g hg; simp [List.eq_of_mem_replicate hg]),
   hardPity_after_ten_games.2 _ 0 (by norm_num)⟩

theorem updatePityTracker_streak (s : PityState) (tier : Int) (c : Bool) (now : Nat) :
    (updatePityTracker s tier c now).consecutiveTier6 = 0 ∨
      (updatePityTracker s tier c now).consecutiveTier5 = 0 := by
  simp only [updatePityTracker]
  split_ifs <;> simp

/-- C4: every pity state reachable from the all-zero initial record by
`updatePityTracker` transitions has at most one of `consecutiveTier6` and
`consecutiveTier5` nonzero. -/
theorem pity_streaks_exclusive (games : List GameOutcome) :
    (applyGames initialPityState games).consecutiveTier6 = 0 ∨
      (applyGames initialPityState games).consecutiveTier5 = 0 := by
  suffices h : ∀ s : PityState, s.consecutiveTier6 = 0 ∨ s.consecutiveTier5 = 0 →
      (applyGames s games).consecutiveTier6 = 0 ∨
        (applyGames s games).consecutiveTier5 = 0 by
    exact h initialPityState (Or.inl rfl)
  induction games with
  | nil => intro s hs; exact hs
  | cons g gs ih =>
    intro s hs
    rw [applyGames_cons]
    exact ih _ (updatePityTracker_streak s g.tier g.pulledCeiling g.now)

/-- C6 counterexample: `calculatePityModifiers` is not a function of the
pity state alone — on the state with a tier-6 streak of 3 (hard pity not
reached), the 20% tier-boost roll makes two invocations disagree. -/
theorem calculatePityModifiers_coin_dependent :
    calculatePityModifiers ⟨3, 0, 0, 0, 3, none⟩ (1/10) ≠
      calculatePityModifiers ⟨3, 0, 0, 0, 3, none⟩ (1/2) := by
  simp [calculatePityModifiers, PityModifiers.mk.injEq]
  norm_num

/-- C6 amended: `calculatePityModifiers` never mutates the state (it is a
pure function of state and coin), its `ceilingWeightMultiplier` and
`guaranteeCeiling` components depend on the state alone, and the full
result is invocation-independent whenever `hardPityCounter ≥ 10` or
`consecutiveTier6 < 3` (the tier-boost roll is random otherwise). -/
theorem calculatePityModifiers_pure_components (s : PityState) (c1 c2 : Rat) :
    (calculatePityModifiers s c1).ceilingWeightMultiplier
        = (calculatePityModifiers s c2).ceilingWeightMultiplier ∧
    (calculatePityModifiers s c1).guaranteeCeiling
        = (calculatePityModifiers s c2).guaranteeCeiling ∧
    (s.hardPityCounter ≥ 10 ∨ s.consecutiveTier6 < 3 →
        calculatePityModifiers s c1 = calculatePityModifiers s c2) := by
  refine ⟨?_, ?_, ?_⟩
  · by_cases h : s.hardPityCounter ≥ 10 <;> simp [calculatePityModifiers, h]
  · by_cases h : s.hardPityCounter ≥ 10 <;> simp [calculatePityModifiers, h]
  · intro hor
    by_cases h : s.hardPityCounter ≥ 10
    · simp [calculatePityModifiers, h]
    · have h3 : ¬ s.consecutiveTier6 ≥ 3 := by omega
      simp [calculatePityModifiers, h, h3]

/-- Witness for the amended C6 on the fresh tracker with two different
coins. -/
theorem calculatePityModifiers_pure_components_witness :
    calculatePityModifiers initialPityState 0 =
      calculatePityModifiers initialPityState (1/2) :=
  (calculatePityModifiers_pure_components initialPityState 0 (1/2)).2.2
    (Or.inr (by norm_num [initialPityState]))

/-! ### The feedback engine -/

/-- C7: the slot-2 type verdict is n/a exactly when the answer has no
secondary type, for every guess. -/
theorem slot2_na_iff_monotype (guess answer : Pokemon) :
    (generateFeedback guess answer).type2 = FeedbackType.na ↔ answer.type2 = none := by
  have hrw : (generateFeedback guess answer).type2 =
      compareTypes guess.type1 guess.type2 answer.type1 answer.type2 2 := rfl
  rw [hrw]
  unfold compareTypes
  cases ha : answer.type2 with
  | none => simp
  | some v =>
    simp only [ha]
    norm_num
    split_ifs <;> simp_all

theorem except_toOption_some {E A : Type} (e : Except E A) (a : A) :
    e.toOption = some a ↔ e = Except.ok a := by
  cases e <;> simp [Except.toOption]

theorem selectWeightedRandom_ok_mem {T : Type} (wt : T → Option Rat) (items : List T)
    (cw : Option (List Rat)) (r : Rat) (y : T)
    (h : selectWeightedRandom wt items cw r = Except.ok y) : y ∈ items := by
  unfold selectWeightedRandom at h
  by_cases h0 : items.length = 0
  · rw [if_pos h0] at h; cases h
  · rw [if_neg h0] at h
    by_cases h1 : items.length = 1
    · rw [if_pos h1] at h
      cases items with
      | nil => cases h
      | cons x xs =>
        injection h with h2
        exact h2 ▸ List.mem_cons_self _ _
    · rw [if_neg h1] at h
      cases hw : weightedDraw items
          (cw.getD (items.map (fun item => weightOrOne (wt item)))) r with
      | none => rw [hw] at h; cases h
      | some z =>
        rw [hw] at h
        injection h with h2
        exact h2 ▸ weightedDraw_mem _ _ _ _ hw

/-! ### The guaranteed-card fallback chain -/

theorem selectGuaranteedCard_exact (db : List Card) (pid : Nat) (tier : Int) (r : Rat)
    (hne : db.filter (fun c => c.pokemonId = pid ∧ c.tier = tier) ≠ []) :
    ∃ c ∈ db.filter (fun c => c.pokemonId = pid ∧ c.tier = tier),
      selectGuaranteedCard db pid tier r = some c := by
  obtain ⟨y, hy, he⟩ := selectWeightedRandom_mem cardWeight _ none r hne
  refine ⟨y, hy, ?_⟩
  simp only [selectGuaranteedCard]
  rw [if_neg (fun h => hne (List.length_eq_zero.mp h)), he]
  rfl

theorem selectGuaranteedCard_adjacent (db : List Card) (pid : Nat) (tier : Int) (r : Rat)
    (hex : db.filter (fun c => c.pokemonId = pid ∧ c.tier = tier) = [])
    (hne : db.filter (fun c => c.pokemonId = pid ∧
        (c.tier = max 1 (tier - 1) ∨ c.tier = min 6 (tier + 1))) ≠ []) :
    ∃ c ∈ db.filter (fun c => c.pokemonId = pid ∧
        (c.tier = max 1 (tier - 1) ∨ c.tier = min 6 (tier + 1))),
      selectGuaranteedCard db pid tier r = some c := by
  obtain ⟨y, hy, he⟩ := selectWeightedRandom_mem cardWeight _ none r hne
  refine ⟨y, hy, ?_⟩
  simp only [selectGuaranteedCard]
  rw [if_pos (by rw [hex]; rfl), if_pos (List.length_pos.mpr hne), he]
  rfl

theorem selectGuaranteedCard_anyTier (db : List Card) (pid : Nat) (tier : Int) (r : Rat)
    (hex : db.filter (fun c => c.pokemonId = pid ∧ c.tier = tier) = [])
    (hadj : db.filter (fun c => c.pokemonId = pid ∧
        (c.tier = max 1 (tier - 1) ∨ c.tier = min 6 (tier + 1))) = [])
    (hne : db.filter (fun c => c.pokemonId = pid) ≠ []) :
    ∃ c ∈ db.filter (fun c => c.pokemonId = pid),
      selectGuaranteedCard db pid tier r = some c := by
  obtain ⟨y, hy, he⟩ := selectWeightedRandom_mem cardWeight _ none r hne
  refine ⟨y, hy, ?_⟩
  simp only [selectGuaranteedCard]
  rw [if_pos (by rw [hex]; rfl), if_neg (by rw [hadj]; simp),
    if_pos (List.length_pos.mpr hne), he]
  rfl

theorem selectGuaranteedCard_none_iff (db : List Card) (pid : Nat) (tier : Int) (r : Rat) :
    selectGuaranteedCard db pid tier r = none ↔
      db.filter (fun c => c.pokemonId = pid) = [] := by
  constructor
  · intro h
    by_contra hne
    by_cases hex : db.filter (fun c => c.pokemonId = pid ∧ c.tier = tier) = []
    · by_cases hadj : db.filter (fun c => c.pokemonId = pid ∧
          (c.tier = max 1 (tier - 1) ∨ c.tier = min 6 (tier + 1))) = []
      · obtain ⟨c, _, he⟩ := selectGuaranteedCard_anyTier db pid tier r hex hadj hne
        rw [he] at h; cases h
      · obtain ⟨c, _, he⟩ := selectGuaranteedCard_adjacent db pid tier r hex hadj
        rw [he] at h; cases h
    · obtain ⟨c, _, he⟩ := selectGuaranteedCard_exact db pid tier r hex
      rw [he] at h; cases h
  · intro hany
    have hex : db.filter (fun c => c.pokemonId = pid ∧ c.tier = tier) = [] := by
      rw [List.filter_eq_nil_iff] at hany ⊢
      intro c hc
      have hnp := hany c hc
      simp only [decide_eq_true_eq] at hnp ⊢
      exact fun hcc => hnp hcc.1
    have hadj : db.filter (fun c => c.pokemonId = pid ∧
        (c.tier = max 1 (tier - 1) ∨ c.tier = min 6 (tier + 1))) = [] := by
      rw [List.filter_eq_nil_iff] at hany ⊢
      intro c hc
      have hnp := hany c hc
      simp only [decide_eq_true_eq] at hnp ⊢
      exact fun hcc => hnp hcc.1
    simp only [selectGuaranteedCard]
    rw [if_pos (by rw [hex]; rfl), if_neg (by rw [hadj]; simp),
      if_neg (by rw [hany]; simp)]

/-- C2: the guaranteed-card fallback chain is taken in order — exact
effective tier, then the clamped adjacent tiers only if that was empty,
then any tier only if both were empty — and `generateCardOffers` fails
exactly when the catalog holds no card of the requested entity at any
tier. -/
theorem guaranteed_fallback_chain (db : List Card) (pid : Nat) (tier : Int) (r : Rat) :
    (db.filter (fun c => c.pokemonId = pid ∧ c.tier = tier) ≠ [] →
      ∃ c ∈ db.filter (fun c => c.pokemonId = pid ∧ c.tier = tier),
        selectGuaranteedCard db pid tier r = some c) ∧
    (db.filter (fun c => c.pokemonId = pid ∧ c.tier = tier) = [] →
      db.filter (fun c => c.pokemonId = pid ∧
        (c.tier = max 1 (tier - 1) ∨ c.tier = min 6 (tier + 1))) ≠ [] →
      ∃ c ∈ db.filter (fun c => c.pokemonId = pid ∧
        (c.tier = max 1 (tier - 1) ∨ c.tier = min 6 (tier + 1))),
        selectGuaranteedCard db pid tier r = some c) ∧
    (db.filter (fun c => c.pokemonId = pid ∧ c.tier = tier) = [] →
      db.filter (fun c => c.pokemonId = pid ∧
        (c.tier = max 1 (tier - 1) ∨ c.tier = min 6 (tier + 1))) = [] →
      db.filter (fun c => c.pokemonId = pid) ≠ [] →
      ∃ c ∈ db.filter (fun c => c.pokemonId = pid),
        selectGuaranteedCard db pid tier r = some c) ∧
    (∀ (ps : PityState) (coin rG : Rat) (ci1 : Nat) (r1 : Rat) (ci2 : Nat) (r2 : Rat),
      (∃ e, generateCardOffers db ps tier pid coin rG ci1 r1 ci2 r2 = Except.error e) ↔
        db.filter (fun c => c.pokemonId = pid) = []) := by
  refine ⟨selectGuaranteedCard_exact db pid tier r,
    selectGuaranteedCard_adjacent db pid tier r,
    selectGuaranteedCard_anyTier db pid tier r, ?_⟩
  intro ps coin rG ci1 r1 ci2 r2
  simp only [generateCardOffers]
  cases hsel : selectGuaranteedCard db pid
      (if (calculatePityModifiers ps coin).tierBoost = true ∧ tier > 1
       then max 1 (tier - 1) else tier) rG with
  | none =>
    exact iff_of_true ⟨_, rfl⟩ ((selectGuaranteedCard_none_iff db pid _ rG).mp hsel)
  | some g =>
    refine iff_of_false (by simp) ?_
    intro hany
    rw [(selectGuaranteedCard_none_iff db pid _ rG).mpr hany] at hsel
    cases hsel

/-- Witness for C2: a one-card catalog exercises the exact-tier step, the
adjacent-tier step from a mismatched tier, the any-tier step from a far
tier, and the failure case on an entity with no cards. -/
theorem guaranteed_fallback_chain_witness :
    (∃ c ∈ ([⟨1, 42, 3, false, 1⟩] : List Card).filter
        (fun c => c.pokemonId = 42 ∧ c.tier = 3),
      selectGuaranteedCard [⟨1, 42, 3, false, 1⟩] 42 3 0 = some c) ∧
    (∃ e, generateCardOffers [⟨1, 42, 3, false, 1⟩] initialPityState 3 7 0 0 0 0 0 0 =
      Except.error e) :=
  ⟨(guaranteed_fallback_chain [⟨1, 42, 3, false, 1⟩] 42 3 0).1 (by decide),
   ((guaranteed_fallback_chain [⟨1, 42, 3, false, 1⟩] 7 3 0).2.2.2
      initialPityState 0 0 0 0 0 0).mpr (by decide)⟩

theorem selectGuaranteedCard_pokemonId (db : List Card) (pid : Nat) (tier : Int)
    (r : Rat) (c : Card) (h : selectGuaranteedCard db pid tier r = some c) :
    c.pokemonId = pid := by
  simp only [selectGuaranteedCard] at h
  split at h
  · split at h
    · rw [except_toOption_some] at h
      have hmem := (List.mem_filter.mp (selectWeightedRandom_ok_mem _ _ _ _ _ h)).2
      simp only [decide_eq_true_eq] at hmem
      exact hmem.1
    · split at h
      · rw [except_toOption_some] at h
        have hmem := (List.mem_filter.mp (selectWeightedRandom_ok_mem _ _ _ _ _ h)).2
        simp only [decide_eq_true_eq] at hmem
        exact hmem
      · cases h
  · rw [except_toOption_some] at h
    have hmem := (List.mem_filter.mp (selectWeightedRandom_ok_mem _ _ _ _ _ h)).2
    simp only [decide_eq_true_eq] at hmem
    exact hmem.1

/-- C1: every successful `generateCardOffers` call returns exactly 3
cards, and the card at index 0 is the guaranteed card of the requested
entity, for every tier and pity state. -/
theorem generateCardOffers_three_cards (db : List Card) (ps : PityState) (tier : Int)
    (pid : Nat) (coin rG : Rat) (ci1 : Nat) (r1 : Rat) (ci2 : Nat) (r2 : Rat)
    (offer : CardOffer)
    (hok : generateCardOffers db ps tier pid coin rG ci1 r1 ci2 r2 = Except.ok offer) :
    offer.cards.length = 3 ∧ offer.cards.head? = some offer.guaranteedCard ∧
      offer.guaranteedCard.pokemonId = pid := by
  simp only [generateCardOffers] at hok
  cases hsel : selectGuaranteedCard db pid
      (if (calculatePityModifiers ps coin).tierBoost = true ∧ tier > 1
       then max 1 (tier - 1) else tier) rG with
  | none => rw [hsel] at hok; cases hok
  | some g =>
    rw [hsel] at hok
    injection hok with h
    subst h
    exact ⟨rfl, rfl, selectGuaranteedCard_pokemonId db pid _ rG g hsel⟩

/-- Witness for C1 on a one-card catalog (the fallbacks duplicate the
guaranteed card). -/
theorem generateCardOffers_three_cards_witness :
    (({ cards := [⟨1, 42, 3, false, 1⟩, ⟨1, 42, 3, false, 1⟩, ⟨1, 42, 3, false, 1⟩],
        guaranteedCard := ⟨1, 42, 3, false, 1⟩,
        appliedPity := { ceilingBoost := 1, tierBoost := false, hardPity := false } } :
          CardOffer)).cards.length = 3 ∧
    (({ cards := [⟨1, 42, 3, false, 1⟩, ⟨1, 42, 3, false, 1⟩, ⟨1, 42, 3, false, 1⟩],
        guaranteedCard := ⟨1, 42, 3, false, 1⟩,
        appliedPity := { ceilingBoost := 1, tierBoost := false, hardPity := false } } :
          CardOffer)).cards.head? = some (⟨1, 42, 3, false, 1⟩ : Card) ∧
    (⟨1, 42, 3, false, 1⟩ : Card).pokemonId = 42 :=
  generateCardOffers_three_cards [⟨1, 42, 3, false, 1⟩] initialPityState 3 42
    0 0 0 0 0 0 _ rfl

/-! ### Hard pity restricts the random slots to ceiling cards (C5) -/

theorem selectRandomCard_guarantee (db : List Card) (tier : Int) (m : Rat)
    (excl : List Nat) (ci : Nat) (r : Rat)
    (hne : db.filter (fun c => c.tier = tier ∧ c.isCeiling = true ∧ c.id ∉ excl) ≠ []) :
    ∃ c ∈ db.filter (fun c => c.tier = tier ∧ c.isCeiling = true ∧ c.id ∉ excl),
      selectRandomCard db tier m true excl ci r = Except.ok c := by
  simp only [selectRandomCard]
  rw [dif_pos ⟨trivial, List.length_pos.mpr hne⟩]
  exact ⟨_, List.get_mem _ _ _, rfl⟩

theorem pickRandomCardWithFallback_ceiling (db : List Card) (tier : Int) (m : Rat)
    (excl : List Nat) (ci : Nat) (r : Rat) (g : Card)
    (hne : db.filter (fun c => c.tier = tier ∧ c.isCeiling = true ∧ c.id ∉ excl) ≠ []) :
    pickRandomCardWithFallback db tier m true excl ci r g ∈
      db.filter (fun c => c.tier = tier ∧ c.isCeiling = true ∧ c.id ∉ excl) := by
  obtain ⟨c, hc, he⟩ := selectRandomCard_guarantee db tier m excl ci r hne
  simp only [pickRandomCardWithFallback]
  rw [he]
  exact hc

/-- C5: under hard pity (`hardPityCounter ≥ 10`, so `guaranteeCeiling`
holds and no tier boost fires), each of the two random slots of a
successful `generateCardOffers` is taken from the ceiling-flagged cards
of the tier not yet excluded, whenever that pool is non-empty. -/
theorem hardPity_restricts_to_ceiling (db : List Card) (s : PityState) (tier : Int)
    (pid : Nat) (coin rG : Rat) (ci1 : Nat) (r1 : Rat) (ci2 : Nat) (r2 : Rat)
    (offer : CardOffer)
    (h10 : s.hardPityCounter ≥ 10)
    (hok : generateCardOffers db s tier pid coin rG ci1 r1 ci2 r2 = Except.ok offer) :
    ∃ rc1 rc2, offer.cards = [offer.guaranteedCard, rc1, rc2] ∧
      (db.filter (fun c => c.tier = tier ∧ c.isCeiling = true ∧
          c.id ∉ [offer.guaranteedCard.id]) ≠ [] →
        rc1 ∈ db.filter (fun c => c.tier = tier ∧ c.isCeiling = true ∧
          c.id ∉ [offer.guaranteedCard.id])) ∧
      (db.filter (fun c => c.tier = tier ∧ c.isCeiling = true ∧
          c.id ∉ [offer.guaranteedCard.id, rc1.id]) ≠ [] →
        rc2 ∈ db.filter (fun c => c.tier = tier ∧ c.isCeiling = true ∧
          c.id ∉ [offer.guaranteedCard.id, rc1.id])) := by
  have hmod := calculatePityModifiers_hardPity s coin h10
  simp only [generateCardOffers, hmod] at hok
  norm_num at hok
  cases hsel : selectGuaranteedCard db pid tier rG with
  | none => rw [hsel] at hok; cases hok
  | some g =>
    rw [hsel] at hok
    injection hok with h
    subst h
    refine ⟨_, _, rfl, ?_, ?_⟩
    · intro hne
      exact pickRandomCardWithFallback_ceiling db tier 1 [g.id] ci1 r1 g hne
    · intro hne
      exact pickRandomCardWithFallback_ceiling db tier 1
        [g.id, (pickRandomCardWithFallback db tier 1 true [g.id] ci1 r1 g).id]
        ci2 r2 g hne

/-- Witness for C5: hard pity at tier 4 over a catalog with two ceiling
cards — both random slots land on the ceiling cards. -/
theorem hardPity_restricts_to_ceiling_witness :
    ∃ rc1 rc2,
      [(⟨1, 42, 4, false, 1⟩ : Card), ⟨2, 7, 4, true, 1⟩, ⟨3, 8, 4, true, 1⟩] =
        [(⟨1, 42, 4, false, 1⟩ : Card), rc1, rc2] ∧
      (([(⟨1, 42, 4, false, 1⟩ : Card), ⟨2, 7, 4, true, 1⟩, ⟨3, 8, 4, true, 1⟩]).filter
          (fun c => c.tier = 4 ∧ c.isCeiling = true ∧ c.id ∉ [(1 : Nat)]) ≠ [] →
        rc1 ∈ ([(⟨1, 42, 4, false, 1⟩ : Card), ⟨2, 7, 4, true, 1⟩,
            ⟨3, 8, 4, true, 1⟩]).filter
          (fun c => c.tier = 4 ∧ c.isCeiling = true ∧ c.id ∉ [(1 : Nat)])) ∧
      (([(⟨1, 42, 4, false, 1⟩ : Card), ⟨2, 7, 4, true, 1⟩, ⟨3, 8, 4, true, 1⟩]).filter
          (fun c => c.tier = 4 ∧ c.isCeiling = true ∧ c.id ∉ [(1 : Nat), rc1.id]) ≠ [] →
        rc2 ∈ ([(⟨1, 42, 4, false, 1⟩ : Card), ⟨2, 7, 4, true, 1⟩,
            ⟨3, 8, 4, true, 1⟩]).filter
          (fun c => c.tier = 4 ∧ c.isCeiling = true ∧ c.id ∉ [(1 : Nat), rc1.id])) :=
  hardPity_restricts_to_ceiling
    [⟨1, 42, 4, false, 1⟩, ⟨2, 7, 4, true, 1⟩, ⟨3, 8, 4, true, 1⟩]
    ⟨0, 0, 0, 10, 0, none⟩ 4 42 0 0 0 0 0 0 _ (by norm_num) rfl

/-! ### The spawn selector (C8) -/

/-- C8: `selectRandomPokemon` returns a spawn-configured entity of the
biome whenever some card-bearing entity is spawn-configured there, drawing
from the time-of-day pool when it is non-empty and from the biome-wide
pool otherwise; it errors exactly when the biome has no card-bearing
spawn at all. -/
theorem selectRandomPokemon_spec (spawns : List PokemonSpawn) (cards : List Card)
    (biomeId : Nat) (timeOfDay : String) (r : Rat) :
    (spawns.filter (fun s => s.biomeId = biomeId ∧ hasCard cards s.pokemonId = true) ≠ [] →
      ∃ s ∈ (if spawns.filter (fun s => s.biomeId = biomeId ∧
            (s.timeOfDay = timeOfDay ∨ s.timeOfDay = "both") ∧
            hasCard cards s.pokemonId = true) = []
          then spawns.filter (fun s => s.biomeId = biomeId ∧
            hasCard cards s.pokemonId = true)
          else spawns.filter (fun s => s.biomeId = biomeId ∧
            (s.timeOfDay = timeOfDay ∨ s.timeOfDay = "both") ∧
            hasCard cards s.pokemonId = true)),
        s.biomeId = biomeId ∧
          selectRandomPokemon spawns cards biomeId timeOfDay r =
            Except.ok s.pokemonId) ∧
    (spawns.filter (fun s => s.biomeId = biomeId ∧ hasCard cards s.pokemonId = true) = [] →
      selectRandomPokemon spawns cards biomeId timeOfDay r =
        Except.error "No Pokemon with cards available for biome") := by
  constructor
  · intro hb
    by_cases ht : spawns.filter (fun s => s.biomeId = biomeId ∧
        (s.timeOfDay = timeOfDay ∨ s.timeOfDay = "both") ∧
        hasCard cards s.pokemonId = true) = []
    · rw [if_pos ht]
      simp only [selectRandomPokemon]
      have hlen : (spawns.filter (fun s => s.biomeId = biomeId ∧
          (s.timeOfDay = timeOfDay ∨ s.timeOfDay = "both") ∧
          hasCard cards s.pokemonId = true)).length = 0 := by rw [ht]; rfl
      rw [if_pos hlen, if_neg (fun h => hb (List.length_eq_zero.mp h))]
      obtain ⟨y, hy, hw⟩ := weightedDraw_some _
        ((spawns.filter (fun s => s.biomeId = biomeId ∧
          hasCard cards s.pokemonId = true)).map (fun s => s.spawnWeight)) r hb
      rw [hw]
      refine ⟨y, hy, ?_, rfl⟩
      have h2 := (List.mem_filter.mp hy).2
      simp only [decide_eq_true_eq] at h2
      exact h2.1
    · rw [if_neg ht]
      simp only [selectRandomPokemon]
      rw [if_neg (fun h => ht (List.length_eq_zero.mp h)),
        if_neg (fun h => ht (List.length_eq_zero.mp h))]
      obtain ⟨y, hy, hw⟩ := weightedDraw_some _
        ((spawns.filter (fun s => s.biomeId = biomeId ∧
          (s.timeOfDay = timeOfDay ∨ s.timeOfDay = "both") ∧
          hasCard cards s.pokemonId = true)).map (fun s => s.spawnWeight)) r ht
      rw [hw]
      refine ⟨y, hy, ?_, rfl⟩
      have h2 := (List.mem_filter.mp hy).2
      simp only [decide_eq_true_eq] at h2
      exact h2.1
  · intro hb
    have ht : spawns.filter (fun s => s.biomeId = biomeId ∧
        (s.timeOfDay = timeOfDay ∨ s.timeOfDay = "both") ∧
        hasCard cards s.pokemonId = true) = [] := by
      rw [List.filter_eq_nil_iff] at hb ⊢
      intro a ha
      have hnp := hb a ha
      simp only [decide_eq_true_eq] at hnp ⊢
      exact fun hcc => hnp ⟨hcc.1, hcc.2.2⟩
    simp only [selectRandomPokemon]
    have hlen : (spawns.filter (fun s => s.biomeId = biomeId ∧
        (s.timeOfDay = timeOfDay ∨ s.timeOfDay = "both") ∧
        hasCard cards s.pokemonId = true)).length = 0 := by rw [ht]; rfl
    have hlen2 : (spawns.filter (fun s => s.biomeId = biomeId ∧
        hasCard cards s.pokemonId = true)).length = 0 := by rw [hb]; rfl
    rw [if_pos hlen, if_pos hlen2]

/-- Witness for C8: the night-only biome queried at daytime still returns
its sole entity through the biome-wide fallback. -/
theorem selectRandomPokemon_spec_witness :
    ∃ s ∈ ([⟨5, 9, "night", 1⟩] : List PokemonSpawn),
      s.biomeId = 9 ∧
        selectRandomPokemon [⟨5, 9, "night", 1⟩] [⟨1, 5, 3, false, 1⟩] 9 "day" 0 =
          Except.ok s.pokemonId :=
  (selectRandomPokemon_spec [⟨5, 9, "night", 1⟩] [⟨1, 5, 3, false, 1⟩] 9 "day" 0).1
    (by decide)

/-! ### Totality of the weighted draw (C9) -/

/-- C9: `selectWeightedRandom` is total on non-empty input — it returns a
member of the list without throwing, single-item lists short-circuit to
their only element, a zero or missing per-item weight is read as weight 1 —
and it throws exactly on the empty list. -/
theorem selectWeightedRandom_total (T : Type) (wt : T → Option Rat) (items : List T)
    (cw : Option (List Rat)) (r : Rat) :
    (items ≠ [] → ∃ y ∈ items, selectWeightedRandom wt items cw r = Except.ok y) ∧
    (∀ x : T, items = [x] → selectWeightedRandom wt items cw r = Except.ok x) ∧
    (items = [] → selectWeightedRandom wt items cw r =
        Except.error "Cannot select from empty array") ∧
    (∀ item : T, wt item = none ∨ wt item = some 0 → weightOrOne (wt item) = 1) := by
  refine ⟨fun hne => selectWeightedRandom_mem wt items cw r hne, ?_, ?_, ?_⟩
  · intro x hx; subst hx; rfl
  · intro hx; subst hx; rfl
  · intro item h
    rcases h with h | h <;> simp [weightOrOne, h]

/-- Witness for C9: a two-element list with missing weights, a singleton,
and a zero weight, all at concrete inputs. -/
theorem selectWeightedRandom_total_witness :
    (∃ y ∈ [5, 7], selectWeightedRandom (fun _ : Nat => (none : Option Rat)) [5, 7]
        none (1/2) = Except.ok y) ∧
    selectWeightedRandom (fun _ : Nat => (none : Option Rat)) [9] none (1/2) =
        Except.ok 9 ∧
    weightOrOne ((fun _ : Nat => (some 0 : Option Rat)) 5) = 1 :=
  ⟨(selectWeightedRandom_total Nat (fun _ => none) [5, 7] none (1/2)).1 (by simp),
   (selectWeightedRandom_total Nat (fun _ => none) [9] none (1/2)).2.1 9 rfl,
   (selectWeightedRandom_total Nat (fun _ => some 0) [5, 7] none (1/2)).2.2.2 5
      (Or.inr rfl)⟩

/-! ### The rarity normaliser (C10) -/

theorem strHasPrefixChars_refl (l : List Char) : strHasPrefixChars l l = true := by
  induction l with
  | nil => rfl
  | cons a t ih => simp [strHasPrefixChars, ih]

theorem strContains_self (s : String) : strContains s s = true := by
  unfold strContains
  cases h : s.toList with
  | nil => rfl
  | cons a t => simp [strContainsChars, strHasPrefixChars_refl]

set_option maxHeartbeats 2000000 in
theorem normalizeRarity_mem (s : String) : normalizeRarity s ∈ cardRarityNames := by
  simp only [normalizeRarity]
  split_ifs <;> simp [cardRarityNames]

set_option maxHeartbeats 2000000 in
theorem normalizeRarity_default (s : String)
    (hk : ∀ k ∈ rarityKeywords, strContains (strTrim (strToLower s)) k = false) :
    normalizeRarity s = "Common" := by
  have hne : ∀ k ∈ rarityKeywords, ¬ strTrim (strToLower s) = k := by
    intro k hk2 he
    have h1 := hk k hk2
    rw [he, strContains_self] at h1
    exact absurd h1 (by simp)
  have u1 := hk "ultra rare" (by simp [rarityKeywords])
  have u2 := hk "shiny super rare" (by simp [rarityKeywords])
  have u3 := hk "shiny rare" (by simp [rarityKeywords])
  have u4 := hk "immersive" (by simp [rarityKeywords])
  have u5 := hk "special illustration rare" (by simp [rarityKeywords])
  have u6 := hk "illustration rare" (by simp [rarityKeywords])
  have u7 := hk "super rare" (by simp [rarityKeywords])
  have u8 := hk "double rare" (by simp [rarityKeywords])
  have u9 := hk "rare" (by simp [rarityKeywords])
  have u10 := hk "uncommon" (by simp [rarityKeywords])
  have u11 := hk "common" (by simp [rarityKeywords])
  have e1 := hne "ultra rare" (by simp [rarityKeywords])
  have e5 := hne "special illustration rare" (by simp [rarityKeywords])
  have e6 := hne "illustration rare" (by simp [rarityKeywords])
  have e7 := hne "super rare" (by simp [rarityKeywords])
  have e8 := hne "double rare" (by simp [rarityKeywords])
  simp only [normalizeRarity]
  simp [u1, u2, u3, u4, u5, u6, u7, u8, u9, u10, u11, e1, e5, e6, e7, e8]

set_option maxHeartbeats 2000000 in
theorem normalizeRarity_folds_hyper : normalizeRarity "Hyper Rare" = "Rare" := by
  decide

/-- C10: `normalizeRarity` always lands in the canonical `CardRarity`
vocabulary, any input containing none of the probed rarity keywords
collapses to Common, and an unlisted variant such as Hyper Rare folds
into Rare. -/
theorem normalizeRarity_closed (s : String) :
    normalizeRarity s ∈ cardRarityNames ∧
    ((∀ k ∈ rarityKeywords, strContains (strTrim (strToLower s)) k = false) →
        normalizeRarity s = "Common") ∧
    normalizeRarity "Hyper Rare" = "Rare" :=
  ⟨normalizeRarity_mem s, normalizeRarity_default s, normalizeRarity_folds_hyper⟩

/-- Witness for C10 on the keyword-free input "mystery". -/
theorem normalizeRarity_closed_witness : normalizeRarity "mystery" = "Common" :=
  (normalizeRarity_closed "mystery").2.1 (by decide)

end PokemonHotel
